import Mathlib

/-
Verification development for the PlanetScale Datadog check
(`src/planetscale.py`).  The Python source is shallowly embedded:

* Python strings are Lean `String`s, and every string primitive the check
  uses (`startswith`, `rstrip`, `str.replace`, `urllib.parse.urlencode`
  via `requests.compat.urlencode`) is re-implemented here over the
  character list of the string, following CPython semantics.
* Python dicts that the code iterates over (the `labels` mapping of a
  discovered target) are association lists in insertion order; dict
  comprehensions are modelled by `pyDict`, which keeps the first position
  and the last value of a repeated key, as CPython does.
* The two external effects — the discovery HTTP request issued by
  `check` and the collaborator `scraper.scrape()` call issued by
  `_scrape_single_target` — are abstracted into explicit outcome values
  (`ApiResult`, `ScrapeOutcome`): the embedding maps each outcome to the
  value the Python code computes in that branch.
* `service_check` emissions are collected into lists of `HealthSignal`
  values; raising `ConfigurationError` is modelled by `Except.error`.
-/

namespace PlanetScale

/-- Python `s.startswith(pre)` for one prefix string. -/
def strStartsWith (s pre : String) : Bool :=
  pre.data.isPrefixOf s.data

/-- Python `s.rstrip("/")`: remove every trailing `/` character. -/
def rstripSlash (s : String) : String :=
  String.mk ((s.data.reverse.dropWhile (fun c => c = '/')).reverse)

/-- Work loop of `pyReplace`, fuelled by the length of the scanned list:
each step either consumes one character or (on a match of the non-empty
pattern) at least one, so fuel `l.length` always suffices. -/
def replaceAllFuel (pat rep : List Char) : Nat → List Char → List Char
  | _, [] => []
  | 0, l => l
  | fuel + 1, c :: rest =>
    if pat ≠ [] ∧ pat.isPrefixOf (c :: rest) then
      rep ++ replaceAllFuel pat rep fuel ((c :: rest).drop pat.length)
    else
      c :: replaceAllFuel pat rep fuel rest

/-- Python `s.replace(pat, rep)`: replace every non-overlapping occurrence
of `pat`, scanning left to right. -/
def pyReplace (s pat rep : String) : String :=
  String.mk (replaceAllFuel pat.data rep.data s.data.length s.data)

/-- Upper-case hexadecimal digit, as CPython `urllib.parse.quote` emits. -/
def hexUpper (n : Nat) : Char :=
  if n < 10 then Char.ofNat (48 + n) else Char.ofNat (55 + n)

/-- UTF-8 encoding of one character, as a list of byte values. -/
def utf8BytesOfChar (c : Char) : List Nat :=
  let n := c.toNat
  if n < 128 then [n]
  else if n < 2048 then [192 + n / 64, 128 + n % 64]
  else if n < 65536 then [224 + n / 4096, 128 + (n / 64) % 64, 128 + n % 64]
  else [240 + n / 262144, 128 + (n / 4096) % 64, 128 + (n / 64) % 64, 128 + n % 64]

/-- Bytes that `urllib.parse.quote_plus` leaves unescaped:
ASCII letters, digits, and `_ . - ~`. -/
def isSafeByte (b : Nat) : Bool :=
  (65 ≤ b && b ≤ 90) || (97 ≤ b && b ≤ 122) || (48 ≤ b && b ≤ 57) ||
    b == 95 || b == 46 || b == 45 || b == 126

/-- One byte under `quote_plus`: space becomes `+`, safe bytes pass
through, every other byte becomes `%XX` with upper-case hex. -/
def quotePlusByte (b : Nat) : List Char :=
  if b = 32 then ['+']
  else if isSafeByte b then [Char.ofNat b]
  else ['%', hexUpper (b / 16), hexUpper (b % 16)]

/-- CPython `urllib.parse.quote_plus` on a string (UTF-8 encoded). -/
def quote_plus (s : String) : String :=
  String.mk (((s.data.map utf8BytesOfChar).flatten.map quotePlusByte).flatten)

/-- `requests.compat.urlencode` = `urllib.parse.urlencode` on a mapping:
`k=v` pairs quoted with `quote_plus` and joined with `&`, in mapping
iteration order. -/
def urlencode (params : List (String × String)) : String :=
  String.intercalate "&" (params.map (fun kv => quote_plus kv.1 ++ "=" ++ quote_plus kv.2))

/-- `d[k] = v` on a CPython dict represented as an association list with
unique keys: an existing key keeps its position and gets the new value,
a new key is appended. -/
def dictInsert (d : List (String × String)) (k v : String) : List (String × String) :=
  if (d.lookup k).isSome then d.map (fun kv => if kv.1 = k then (k, v) else kv)
  else d ++ [(k, v)]

/-- A CPython dict built by inserting the given key/value pairs in order
(the semantics of a dict comprehension over those pairs). -/
def pyDict (items : List (String × String)) : List (String × String) :=
  items.foldl (fun d kv => dictInsert d kv.1 kv.2) []

/-- Python truthiness of `instance.get(key)` for a string-valued key:
`None` (absent) and the empty string are falsy. -/
def pyTruthy : Option String → Bool
  | none => false
  | some s => s != ""

/-- One discovery-API record, a parsed element of the JSON array returned
by `GET /v1/organizations/{org}/metrics`: the `"targets"` address list
(`[]` also stands for an absent or empty field, both falsy in the
source check at line 114) and the optional `"labels"` mapping. -/
structure RawTarget where
  targets : List String
  labels : Option (List (String × String))
deriving DecidableEq

/-- `AgentCheck` service-check status values used by the source. -/
inductive Status
  | OK
  | CRITICAL
deriving DecidableEq

/-- One `self.service_check(...)` emission. -/
structure HealthSignal where
  checkName : String
  status : Status
  message : Option String
  tags : List String
deriving DecidableEq

/-- The per-check `instance` mapping: every key the source reads through
`instance.get`, `none` meaning the key is absent.  The source keys
`namespace`, `prometheus_metrics_prefix` and `raw_metric_prefix` are
renamed to `nspace`, `prometheus_metrics_pfx` and `raw_metric_pfx`
because Lean reserves those spellings. -/
structure Instance where
  planetscale_organization : Option String
  ps_service_token_id : Option String
  ps_service_token_secret : Option String
  timeout : Option Nat
  ssl_verify : Option Bool
  max_concurrent_requests : Option Nat
  nspace : Option String
  metrics : Option (List String)
  exclude_metrics : Option (List String)
  metadata_metrics : Option (List String)
  metadata_label_map : Option (List (String × String))
  prometheus_metrics_pfx : Option String
  label_joins : Option (List (String × String))
  labels_mapper : Option (List (String × String))
  type_overrides : Option (List (String × String))
  histogram_buckets_as_distributions : Option Bool
  non_cumulative_histogram_buckets : Option Bool
  raw_metric_pfx : Option String
  cache_metric_wildcards : Option Bool
  monotonic_counter : Option Bool
  telemetry : Option Bool
  ignore_tags : Option (List String)
  remap_metric_names : Option Bool
  tags : Option (List String)
  ssl_cert : Option String
  ssl_private_key : Option String
  ssl_ca_cert : Option String
deriving DecidableEq

/-- The `dynamic_instance` dict built per target in
`scrape_planetscale_targets` (lines 121–200): each field is the value
the source stores under the key of the same name (with the same renames
as in `Instance`). -/
structure DynamicInstance where
  nspace : String
  metrics : List String
  exclude_metrics : List String
  metadata_metrics : List String
  metadata_label_map : List (String × String)
  prometheus_metrics_pfx : String
  label_joins : List (String × String)
  labels_mapper : List (String × String)
  type_overrides : List (String × String)
  histogram_buckets_as_distributions : Bool
  non_cumulative_histogram_buckets : Bool
  raw_metric_pfx : String
  cache_metric_wildcards : Bool
  monotonic_counter : Bool
  telemetry : Bool
  ignore_tags : List String
  remap_metric_names : Bool
  tags : List String
  ssl_verify : Bool
  ssl_cert : Option String
  ssl_private_key : Option String
  ssl_ca_cert : Option String
  timeout : Nat
  openmetrics_endpoint : String
  tag_by_endpoint : Bool
deriving DecidableEq

/-- Lines 155–179 of the source: the endpoint URL of one target from its
first address and its labels.  Scheme defaulting, `__metrics_path__`
with default `/metrics`, the dict comprehension over `__param_` keys
(note the source uses `key.replace("__param_", "")`, which removes every
occurrence, not only a leading one), `urlencode`, and assembly with
`base_target.rstrip("/")`. -/
def buildUrl (base_target0 : String) (labels : List (String × String)) : String :=
  let base_target :=
    if strStartsWith base_target0 "http://" || strStartsWith base_target0 "https://" then
      base_target0
    else
      "https://" ++ base_target0
  let metrics_path0 := (labels.lookup "__metrics_path__").getD "/metrics"
  let metrics_path :=
    if strStartsWith metrics_path0 "/" then metrics_path0 else "/" ++ metrics_path0
  let url_params :=
    pyDict ((labels.filter (fun kv => strStartsWith kv.1 "__param_")).map
      (fun kv => (pyReplace kv.1 "__param_" "", kv.2)))
  let query_string := urlencode url_params
  let final_url := rstripSlash base_target ++ metrics_path
  if query_string ≠ "" then final_url ++ "?" ++ query_string else final_url

/-- Lines 196–199 of the source: the tag-merging loop.  `dynamic_tags`
starts as the copied base tag list; every label whose key does not start
with `__` appends `key:value`. -/
def buildTags (dynamic_tags : List String) : List (String × String) → List String
  | [] => dynamic_tags
  | kv :: rest =>
    if strStartsWith kv.1 "__" then buildTags dynamic_tags rest
    else buildTags (dynamic_tags ++ [kv.1 ++ ":" ++ kv.2]) rest

/-- Python `list(instance.get("tags", []))` at line 147: a fresh copy of
the base tag list, so appends to it never reach the instance.  Lean
lists are values, so the copy is the identity; the definition records
where the source takes it. -/
def pyListCopy (l : List String) : List String := l

/-- The loop body of `scrape_planetscale_targets` (lines 113–203) for one
`target_config`: `none` is the `continue` taken when the `targets` field
is missing or empty; otherwise the fully-populated `dynamic_instance`.
The final tag list is `list(set(dynamic_tags))` (line 200), modelled by
`List.dedup` — CPython leaves the order of a `set` unspecified, and no
caller of the result depends on tag order, only on membership. -/
def buildDynamicInstance (inst : Instance) (target_config : RawTarget) : Option DynamicInstance :=
  match target_config.targets with
  | [] => none
  | base_target :: _ =>
    let labels := target_config.labels.getD []
    let final_url := buildUrl base_target labels
    let dynamic_tags := buildTags (pyListCopy (inst.tags.getD [])) labels
    some
      { nspace := inst.nspace.getD "planetscale"
        metrics := inst.metrics.getD []
        exclude_metrics := inst.exclude_metrics.getD []
        metadata_metrics := inst.metadata_metrics.getD []
        metadata_label_map := inst.metadata_label_map.getD []
        prometheus_metrics_pfx := inst.prometheus_metrics_pfx.getD ""
        label_joins := inst.label_joins.getD []
        labels_mapper := inst.labels_mapper.getD []
        type_overrides := inst.type_overrides.getD []
        histogram_buckets_as_distributions := inst.histogram_buckets_as_distributions.getD true
        non_cumulative_histogram_buckets := inst.non_cumulative_histogram_buckets.getD false
        raw_metric_pfx := inst.raw_metric_pfx.getD ""
        cache_metric_wildcards := inst.cache_metric_wildcards.getD true
        monotonic_counter := inst.monotonic_counter.getD true
        telemetry := inst.telemetry.getD true
        ignore_tags := inst.ignore_tags.getD []
        remap_metric_names := inst.remap_metric_names.getD true
        tags := dynamic_tags.dedup
        ssl_verify := inst.ssl_verify.getD true
        ssl_cert := inst.ssl_cert
        ssl_private_key := inst.ssl_private_key
        ssl_ca_cert := inst.ssl_ca_cert
        timeout := inst.timeout.getD 10
        openmetrics_endpoint := final_url
        tag_by_endpoint := false }

/-- `scrape_planetscale_targets` (lines 105–209), up to the dispatch of
the built configs: the `scrape_configs` list accumulated by the target
loop, in discovery order, skipped targets contributing nothing.  The
subsequent `ThreadPoolExecutor` dispatch (lines 206–209, bounded by
`max_workers = instance.get("max_concurrent_requests", 5)`) submits
exactly these configs to `_scrape_single_target`. -/
def scrape_planetscale_targets (inst : Instance) (targets : List RawTarget) : List DynamicInstance :=
  targets.filterMap (buildDynamicInstance inst)

/-- One iteration of the target loop with the base `instance` mapping
threaded through explicitly, so that a mutation of it would show in the
returned state.  The source only reads `instance` (every access is
`instance.get(...)`) and copies its tag list (`pyListCopy`), so the
state it leaves behind is the input instance. -/
def buildStep (inst : Instance) (t : RawTarget) : Option DynamicInstance × Instance :=
  (buildDynamicInstance inst t, inst)

/-- The whole target loop with the base `instance` mapping threaded
through `buildStep`: returns the accumulated `scrape_configs` and the
instance state after the batch. -/
def scrapeTargetsStep (inst : Instance) (targets : List RawTarget) :
    List DynamicInstance × Instance :=
  targets.foldl
    (fun acc t =>
      let step := buildStep acc.2 t
      (acc.1 ++ step.1.toList, step.2))
    ([], inst)

/-- Outcome of the collaborator call chain inside the `try` of
`_scrape_single_target` (`self.create_scraper(...)` then
`scraper.scrape()`): either it returns, or some exception with message
`msg` is raised. -/
inductive ScrapeOutcome
  | success
  | failure (msg : String)
deriving DecidableEq

/-- `_scrape_single_target` (lines 211–237): the service checks it emits
for one config under the given collaborator outcome.  Every exception is
caught by the bare `except Exception` — the function is total and
returns its emissions instead of propagating — and maps to one CRITICAL
`planetscale.target.can_scrape` signal whose message is the exception
text and whose tags are the tags of the config
(`dynamic_instance.get("tags", [])`). -/
def scrape_single_target (dynamic_instance : DynamicInstance) (outcome : ScrapeOutcome) :
    List HealthSignal :=
  match outcome with
  | ScrapeOutcome.success => []
  | ScrapeOutcome.failure e =>
    [{ checkName := "planetscale.target.can_scrape"
       status := Status.CRITICAL
       message := some e
       tags := dynamic_instance.tags }]

/-- Outcome of the discovery request sequence in `check` (lines 58–64:
`requests.get`, `raise_for_status`, `response.json()`), classified by
the three `except` arms of the source: `requests.exceptions.Timeout`,
any other `requests.exceptions.RequestException` (which includes the
`HTTPError` raised by `raise_for_status` on a non-2xx status), any
other `Exception` (for example a JSON decode failure), or the parsed
target list. -/
inductive ApiResult
  | timeout (msg : String)
  | requestException (msg : String)
  | otherException (msg : String)
  | success (targets : List RawTarget)
deriving DecidableEq

/-- Line 52 of the source: the discovery URL for an organization. -/
def api_url (org_id : String) : String :=
  "https://api.planetscale.com/v1/organizations/" ++ org_id ++ "/metrics"

/-- `check` (lines 28–103): credential validation, the discovery request
(abstracted into `api`), and the resulting service checks plus the list
of configs handed to the scrape dispatch.  `Except.error` is the
`ConfigurationError` raise; the error strings drop the quotation marks
of the source messages but name the same keys.  On a failed request the
source emits one CRITICAL `planetscale.api.can_connect` check and
returns; on success it emits an OK one and calls
`scrape_planetscale_targets(instance, targets)`. -/
def check (inst : Instance) (api : ApiResult) :
    Except String (List HealthSignal × List DynamicInstance) :=
  if pyTruthy inst.planetscale_organization = false then
    Except.error "Missing planetscale_organization in instance configuration."
  else if pyTruthy inst.ps_service_token_id = false then
    Except.error "Missing ps_service_token_id in instance configuration."
  else if pyTruthy inst.ps_service_token_secret = false then
    Except.error "Missing ps_service_token_secret in instance configuration."
  else
    let org_id := inst.planetscale_organization.getD ""
    match api with
    | ApiResult.timeout e =>
      Except.ok
        ([{ checkName := "planetscale.api.can_connect"
            status := Status.CRITICAL
            message := some ("Timeout connecting to PlanetScale API endpoint " ++
              api_url org_id ++ ": " ++ e)
            tags := ["planetscale_org:" ++ org_id] }], [])
    | ApiResult.requestException e =>
      Except.ok
        ([{ checkName := "planetscale.api.can_connect"
            status := Status.CRITICAL
            message := some ("Error connecting to PlanetScale API endpoint " ++
              api_url org_id ++ ": " ++ e)
            tags := ["planetscale_org:" ++ org_id] }], [])
    | ApiResult.otherException e =>
      Except.ok
        ([{ checkName := "planetscale.api.can_connect"
            status := Status.CRITICAL
            message := some ("Unexpected error querying PlanetScale API endpoint " ++
              api_url org_id ++ ": " ++ e)
            tags := ["planetscale_org:" ++ org_id] }], [])
    | ApiResult.success targets =>
      Except.ok
        ([{ checkName := "planetscale.api.can_connect"
            status := Status.OK
            message := none
            tags := ["planetscale_org:" ++ org_id] }],
          scrape_planetscale_targets inst targets)

/-- Strip one leading occurrence of `pre` from `s`, when present.  This
is the reading of the claimed query-string construction, which says the
`__param_` prefix of a label key is stripped. -/
def stripOncePfx (s pre : String) : String :=
  if strStartsWith s pre then String.mk (s.data.drop pre.data.length) else s

/-- The endpoint URL the claim describes, word for word: first address,
`https://` prepended when schemeless, `__metrics_path__` label (default
`/metrics`, `/` prepended if missing), and a query string built from the
`__param_` labels with that prefix stripped (once, as stripping a prefix
does), URL-encoded, appended as `?...` when non-empty, with trailing
slashes on the host trimmed. -/
def claimedRefUrl (addr : String) (labels : List (String × String)) : String :=
  let schemed :=
    if strStartsWith addr "http://" || strStartsWith addr "https://" then addr
    else "https://" ++ addr
  let host := rstripSlash schemed
  let path0 := (labels.lookup "__metrics_path__").getD "/metrics"
  let path := if strStartsWith path0 "/" then path0 else "/" ++ path0
  let query :=
    urlencode (pyDict ((labels.filter (fun kv => strStartsWith kv.1 "__param_")).map
      (fun kv => (stripOncePfx kv.1 "__param_", kv.2))))
  if query = "" then host ++ path else host ++ path ++ "?" ++ query

/-- The reference URL construction of the amended claim: as
`claimedRefUrl`, except that the query keys have every occurrence of
`__param_` removed (not only a leading one), matching what
`key.replace("__param_", "")` does, with a later label overriding an
earlier one that collapses to the same key. -/
def specUrl (addr : String) (labels : List (String × String)) : String :=
  let schemed :=
    if strStartsWith addr "http://" || strStartsWith addr "https://" then addr
    else "https://" ++ addr
  let host := rstripSlash schemed
  let path0 := (labels.lookup "__metrics_path__").getD "/metrics"
  let path := if strStartsWith path0 "/" then path0 else "/" ++ path0
  let query :=
    urlencode (pyDict ((labels.filter (fun kv => strStartsWith kv.1 "__param_")).map
      (fun kv => (pyReplace kv.1 "__param_" "", kv.2))))
  if query = "" then host ++ path else host ++ path ++ "?" ++ query

/-- A concrete instance mapping with all required credentials present and
one base tag. -/
def instEx : Instance where
  planetscale_organization := some "acme"
  ps_service_token_id := some "tok-id"
  ps_service_token_secret := some "tok-secret"
  timeout := none
  ssl_verify := none
  max_concurrent_requests := none
  nspace := none
  metrics := none
  exclude_metrics := none
  metadata_metrics := none
  metadata_label_map := none
  prometheus_metrics_pfx := none
  label_joins := none
  labels_mapper := none
  type_overrides := none
  histogram_buckets_as_distributions := none
  non_cumulative_histogram_buckets := none
  raw_metric_pfx := none
  cache_metric_wildcards := none
  monotonic_counter := none
  telemetry := none
  ignore_tags := none
  remap_metric_names := none
  tags := some ["env:prod"]
  ssl_cert := none
  ssl_private_key := none
  ssl_ca_cert := none

/-- `instEx` with an empty service-token id, one of the falsy values the
credential validation rejects. -/
def instMissing : Instance :=
  { instEx with ps_service_token_id := some "" }

/-- A discovered target with no address. -/
def tEmpty : RawTarget := { targets := [], labels := some [("env", "prod")] }

/-- A well-formed discovered target. -/
def tA : RawTarget := { targets := ["a.example.com"], labels := none }

/-- Another well-formed discovered target. -/
def tB : RawTarget := { targets := ["b.example.com"], labels := none }

/-- A discovered target with one address and no labels mapping. -/
def c1Target : RawTarget := { targets := ["db1.example.com:8080"], labels := none }

end PlanetScale

namespace PlanetScale

/-- Membership in the tag list produced by the tag-merging loop: the
accumulator entries plus one `key:value` string per label whose key does
not start with `__`. -/
theorem mem_buildTags (labels : List (String × String)) (acc : List String) (x : String) :
    x ∈ buildTags acc labels ↔
      x ∈ acc ∨ ∃ k v, (k, v) ∈ labels ∧ strStartsWith k "__" = false ∧ x = k ++ ":" ++ v := by
  induction labels generalizing acc with
  | nil => simp [buildTags]
  | cons kv rest ih =>
    by_cases h : strStartsWith kv.1 "__"
    · rw [show buildTags acc (kv :: rest) = buildTags acc rest from by simp [buildTags, h], ih]
      constructor
      · rintro (hx | ⟨k, v, hkv, hk, hx⟩)
        · exact Or.inl hx
        · exact Or.inr ⟨k, v, List.mem_cons_of_mem _ hkv, hk, hx⟩
      · rintro (hx | ⟨k, v, hkv, hk, hx⟩)
        · exact Or.inl hx
        · rcases List.mem_cons.mp hkv with heq | hmem
          · refine absurd h ?_
            have hk1 : k = kv.1 := congrArg Prod.fst heq
            rw [hk1] at hk
            simp [hk]
          · exact Or.inr ⟨k, v, hmem, hk, hx⟩
    · rw [show buildTags acc (kv :: rest) = buildTags (acc ++ [kv.1 ++ ":" ++ kv.2]) rest from by
          simp [buildTags, h], ih]
      rw [List.mem_append, List.mem_singleton]
      constructor
      · rintro ((hx | hx) | ⟨k, v, hkv, hk, hx⟩)
        · exact Or.inl hx
        · exact Or.inr ⟨kv.1, kv.2, List.mem_cons_self _ _, by simp [h], hx⟩
        · exact Or.inr ⟨k, v, List.mem_cons_of_mem _ hkv, hk, hx⟩
      · rintro (hx | ⟨k, v, hkv, hk, hx⟩)
        · exact Or.inl (Or.inl hx)
        · rcases List.mem_cons.mp hkv with heq | hmem
          · refine Or.inl (Or.inr ?_)
            have hk1 : k = kv.1 := congrArg Prod.fst heq
            have hv1 : v = kv.2 := congrArg Prod.snd heq
            rw [hx, hk1, hv1]
          · exact Or.inr ⟨k, v, hmem, hk, hx⟩

/-- C1, counterexample.  On a raw target with endpoint
`db1.example.com:8080` and base tag `env:prod`, a failing scrape emits
exactly one CRITICAL `planetscale.target.can_scrape` signal with the
error text as message — but its tag list is the tag set of the config
(`["env\x3aprod"]`), and the endpoint URL
`https://db1.example.com:8080/metrics` is not among the tags, contrary
to the claim that the signal carries the endpoint URL as a tag. -/
theorem c1_counterexample :
    ((scrape_planetscale_targets instEx [c1Target]).map
        (fun cfg => scrape_single_target cfg (ScrapeOutcome.failure "connection refused"))).flatten =
      [{ checkName := "planetscale.target.can_scrape", status := Status.CRITICAL,
         message := some "connection refused", tags := ["env:prod"] }] ∧
    (scrape_planetscale_targets instEx [c1Target]).map
        (fun cfg => cfg.openmetrics_endpoint) = ["https://db1.example.com:8080/metrics"] ∧
    "https://db1.example.com:8080/metrics" ∉ (["env:prod"] : List String) := by
  decide

/-- C1 (amended): for every scrape configuration, when the collaborator
scrape fails with error text `e` the Executor emits exactly one CRITICAL
`planetscale.target.can_scrape` signal whose message is the error text
and whose tags are the tag set of the configuration (not the endpoint
URL, which appears nowhere in the signal); no exception escapes the
Executor (`scrape_single_target` is total and returns its emissions);
and on a successful scrape no signal is emitted. -/
theorem c1_executor_signal (cfg : DynamicInstance) (e : String) :
    scrape_single_target cfg (ScrapeOutcome.failure e) =
      [{ checkName := "planetscale.target.can_scrape", status := Status.CRITICAL,
         message := some e, tags := cfg.tags }] ∧
    scrape_single_target cfg ScrapeOutcome.success = [] :=
  ⟨rfl, rfl⟩

/-- C3, counterexample.  For the raw target with address
`db1.example.com:8080` and label `__param_a__param_b = __param_v`, the
code removes every occurrence of `__param_` from the key
(`key.replace("__param_", "")`), yielding query key `ab`, while the
claimed reference construction strips only the leading prefix, yielding
`a__param_b`; the two URLs differ.  The code URL also still contains
the text `__param_` in its query (from the value), contrary to the
claimed absence of residual `__param_` text. -/
theorem c3_counterexample :
    buildUrl "db1.example.com:8080" [("__param_a__param_b", "__param_v")] =
      "https://db1.example.com:8080/metrics?ab=__param_v" ∧
    claimedRefUrl "db1.example.com:8080" [("__param_a__param_b", "__param_v")] =
      "https://db1.example.com:8080/metrics?a__param_b=__param_v" ∧
    buildUrl "db1.example.com:8080" [("__param_a__param_b", "__param_v")] ≠
      claimedRefUrl "db1.example.com:8080" [("__param_a__param_b", "__param_v")] := by
  decide

/-- C3 (amended): for every raw target with a non-empty endpoint list the
built endpoint URL equals the reference construction in which the query
keys have every occurrence of `__param_` removed (later labels
overriding earlier ones that collapse to the same key), values may still
contain `__param_` text; and in particular the target with address
`db1.example.com:8080` and label `__metrics_path__ = status` yields
`https://db1.example.com:8080/status`. -/
theorem c3_url_reference :
    (∀ addr labels, buildUrl addr labels = specUrl addr labels) ∧
    buildUrl "db1.example.com:8080" [("__metrics_path__", "status")] =
      "https://db1.example.com:8080/status" := by
  refine ⟨fun addr labels => ?_, by decide⟩
  unfold buildUrl specUrl
  by_cases h :
      urlencode (pyDict ((labels.filter (fun kv => strStartsWith kv.1 "__param_")).map
        (fun kv => (pyReplace kv.1 "__param_" "", kv.2)))) = ""
  · simp [h]
  · simp [h]

/-- C5: a raw target whose endpoint list is empty is skipped — the
builder returns `none` (the `continue` of the loop, logged, not an
error), so no scrape config is produced for it, and the configs built
for the rest of the batch are exactly those built without it. -/
theorem c5_skip_empty (inst : Instance) (t : RawTarget) (pre post : List RawTarget)
    (h : t.targets = []) :
    buildDynamicInstance inst t = none ∧
    scrape_planetscale_targets inst (pre ++ t :: post) =
      scrape_planetscale_targets inst pre ++ scrape_planetscale_targets inst post := by
  have hb : buildDynamicInstance inst t = none := by
    unfold buildDynamicInstance
    rw [h]
  exact ⟨hb, by simp [scrape_planetscale_targets, List.filterMap_append, List.filterMap_cons, hb]⟩

/-- C5, witness: the addressless target `tEmpty` between `tA` and `tB`
is dropped and the other two targets are still processed. -/
theorem c5_skip_empty_witness :
    buildDynamicInstance instEx tEmpty = none ∧
    scrape_planetscale_targets instEx ([tA] ++ tEmpty :: [tB]) =
      scrape_planetscale_targets instEx [tA] ++ scrape_planetscale_targets instEx [tB] :=
  c5_skip_empty instEx tEmpty [tA] [tB] rfl

/-- C2: with all required credentials present, a check run emits exactly
one `planetscale.api.can_connect` signal, tagged with the organization
identifier; when the discovery request fails for any reason the signal
is CRITICAL with a message, the check returns normally (no exception to
the caller) and no scrape config is dispatched; when it succeeds the
signal is OK and the parsed target list is handed to
`scrape_planetscale_targets`. -/
theorem c2_api_can_connect (inst : Instance) (api : ApiResult)
    (h1 : pyTruthy inst.planetscale_organization = true)
    (h2 : pyTruthy inst.ps_service_token_id = true)
    (h3 : pyTruthy inst.ps_service_token_secret = true) :
    ∃ sig cfgs, check inst api = Except.ok ([sig], cfgs) ∧
      sig.checkName = "planetscale.api.can_connect" ∧
      sig.tags = ["planetscale_org:" ++ inst.planetscale_organization.getD ""] ∧
      ((∀ ts, api ≠ ApiResult.success ts) →
        sig.status = Status.CRITICAL ∧ sig.message.isSome = true ∧ cfgs = []) ∧
      (∀ ts, api = ApiResult.success ts →
        sig.status = Status.OK ∧ cfgs = scrape_planetscale_targets inst ts) := by
  cases api with
  | timeout e =>
    exact ⟨{ checkName := "planetscale.api.can_connect", status := Status.CRITICAL,
             message := some ("Timeout connecting to PlanetScale API endpoint " ++
               api_url (inst.planetscale_organization.getD "") ++ ": " ++ e),
             tags := ["planetscale_org:" ++ inst.planetscale_organization.getD ""] }, [],
           by simp [check, h1, h2, h3], rfl, rfl, fun _ => ⟨rfl, rfl, rfl⟩,
           fun ts hts => nomatch hts⟩
  | requestException e =>
    exact ⟨{ checkName := "planetscale.api.can_connect", status := Status.CRITICAL,
             message := some ("Error connecting to PlanetScale API endpoint " ++
               api_url (inst.planetscale_organization.getD "") ++ ": " ++ e),
             tags := ["planetscale_org:" ++ inst.planetscale_organization.getD ""] }, [],
           by simp [check, h1, h2, h3], rfl, rfl, fun _ => ⟨rfl, rfl, rfl⟩,
           fun ts hts => nomatch hts⟩
  | otherException e =>
    exact ⟨{ checkName := "planetscale.api.can_connect", status := Status.CRITICAL,
             message := some ("Unexpected error querying PlanetScale API endpoint " ++
               api_url (inst.planetscale_organization.getD "") ++ ": " ++ e),
             tags := ["planetscale_org:" ++ inst.planetscale_organization.getD ""] }, [],
           by simp [check, h1, h2, h3], rfl, rfl, fun _ => ⟨rfl, rfl, rfl⟩,
           fun ts hts => nomatch hts⟩
  | success ts =>
    refine ⟨{ checkName := "planetscale.api.can_connect", status := Status.OK,
              message := none,
              tags := ["planetscale_org:" ++ inst.planetscale_organization.getD ""] },
            scrape_planetscale_targets inst ts,
            by simp [check, h1, h2, h3], rfl, rfl,
            fun hne => absurd rfl (hne ts), fun ts2 hts => ?_⟩
    injection hts with h
    rw [h]
    exact ⟨rfl, rfl⟩

/-- C2, witness: the credentialed instance `instEx` with a successful
discovery reply carrying no targets. -/
theorem c2_api_can_connect_witness :
    ∃ sig cfgs, check instEx (ApiResult.success []) = Except.ok ([sig], cfgs) ∧
      sig.checkName = "planetscale.api.can_connect" ∧
      sig.tags = ["planetscale_org:" ++ instEx.planetscale_organization.getD ""] ∧
      ((∀ ts, ApiResult.success [] ≠ ApiResult.success ts) →
        sig.status = Status.CRITICAL ∧ sig.message.isSome = true ∧ cfgs = []) ∧
      (∀ ts, ApiResult.success [] = ApiResult.success ts →
        sig.status = Status.OK ∧ cfgs = scrape_planetscale_targets instEx ts) :=
  c2_api_can_connect instEx (ApiResult.success []) (by decide) (by decide) (by decide)

/-- C4: for every raw target with an address, the built config exists
and its tag set contains every base-configuration tag, contains the tag
`key:value` of every discovered label whose key does not start with
`__`, contains nothing else (so no `__`-prefixed label contributes a
tag), and holds no duplicates. -/
theorem c4_tag_derivation (inst : Instance) (addr : String) (rest : List String)
    (labels : List (String × String)) :
    ∃ cfg,
      buildDynamicInstance inst { targets := addr :: rest, labels := some labels } = some cfg ∧
      (∀ k v, (k, v) ∈ labels → strStartsWith k "__" = false → (k ++ ":" ++ v) ∈ cfg.tags) ∧
      (∀ x, x ∈ inst.tags.getD [] → x ∈ cfg.tags) ∧
      (∀ x, x ∈ cfg.tags →
        x ∈ inst.tags.getD [] ∨
          ∃ k v, (k, v) ∈ labels ∧ strStartsWith k "__" = false ∧ x = k ++ ":" ++ v) ∧
      cfg.tags.Nodup := by
  refine ⟨_, rfl, ?_, ?_, ?_, ?_⟩
  · intro k v hkv hk
    have hm : (k ++ ":" ++ v) ∈ buildTags (pyListCopy (inst.tags.getD [])) labels :=
      (mem_buildTags labels _ _).mpr (Or.inr ⟨k, v, hkv, hk, rfl⟩)
    simpa [List.mem_dedup] using hm
  · intro x hx
    have hm : x ∈ buildTags (pyListCopy (inst.tags.getD [])) labels :=
      (mem_buildTags labels _ _).mpr (Or.inl hx)
    simpa [List.mem_dedup] using hm
  · intro x hx
    have hm : x ∈ buildTags (pyListCopy (inst.tags.getD [])) labels := by
      simpa [List.mem_dedup] using hx
    exact (mem_buildTags labels _ x).mp hm
  · exact List.nodup_dedup _

/-- C6: when any of the three required credentials is absent or empty,
`check` raises `ConfigurationError` (`Except.error`) with the same
outcome for every discovery-request result — so before any network
request — and, the error branch carrying no emissions, before any health
signal; when all three are present no `ConfigurationError` is raised. -/
theorem c6_configuration_error (inst : Instance) :
    ((pyTruthy inst.planetscale_organization = false ∨
      pyTruthy inst.ps_service_token_id = false ∨
      pyTruthy inst.ps_service_token_secret = false) →
      ∃ msg, ∀ api, check inst api = Except.error msg) ∧
    (pyTruthy inst.planetscale_organization = true →
      pyTruthy inst.ps_service_token_id = true →
      pyTruthy inst.ps_service_token_secret = true →
      ∀ api, ∃ res, check inst api = Except.ok res) := by
  constructor
  · intro h
    by_cases h1 : pyTruthy inst.planetscale_organization = false
    · exact ⟨"Missing planetscale_organization in instance configuration.",
        fun api => by simp [check, h1]⟩
    · rw [Bool.not_eq_false] at h1
      by_cases h2 : pyTruthy inst.ps_service_token_id = false
      · exact ⟨"Missing ps_service_token_id in instance configuration.",
          fun api => by simp [check, h1, h2]⟩
      · rw [Bool.not_eq_false] at h2
        by_cases h3 : pyTruthy inst.ps_service_token_secret = false
        · exact ⟨"Missing ps_service_token_secret in instance configuration.",
            fun api => by simp [check, h1, h2, h3]⟩
        · rw [Bool.not_eq_false] at h3
          rcases h with h | h | h
          · rw [h1] at h
            exact absurd h (by simp)
          · rw [h2] at h
            exact absurd h (by simp)
          · rw [h3] at h
            exact absurd h (by simp)
  · intro h1 h2 h3 api
    cases hc : check inst api with
    | error msg =>
      exfalso
      cases api <;> simp [check, h1, h2, h3] at hc
    | ok res => exact ⟨res, rfl⟩

/-- C6, witness: `instMissing` (empty token id) is rejected with the same
`ConfigurationError` for every discovery outcome, while the fully
credentialed `instEx` runs without one. -/
theorem c6_configuration_error_witness :
    (∃ msg, ∀ api, check instMissing api = Except.error msg) ∧
    ∃ res, check instEx (ApiResult.success []) = Except.ok res :=
  ⟨(c6_configuration_error instMissing).1 (Or.inr (Or.inl (by decide))),
   (c6_configuration_error instEx).2 (by decide) (by decide) (by decide) (ApiResult.success [])⟩

/-- C8: building a scrape config twice from the same raw target, with the
base instance state threaded through the first build into the second,
yields configs with identical endpoint URLs and identical tag-set
membership. -/
theorem c8_idempotent_build (inst : Instance) (addr : String) (rest : List String)
    (labels : Option (List (String × String))) :
    ∃ cfg1 inst1 cfg2 inst2,
      buildStep inst { targets := addr :: rest, labels := labels } = (some cfg1, inst1) ∧
      buildStep inst1 { targets := addr :: rest, labels := labels } = (some cfg2, inst2) ∧
      cfg1.openmetrics_endpoint = cfg2.openmetrics_endpoint ∧
      (∀ x, x ∈ cfg1.tags ↔ x ∈ cfg2.tags) :=
  ⟨_, _, _, _, rfl, rfl, rfl, fun _ => Iff.rfl⟩

/-- C9: running the whole config-building loop over any batch of raw
targets leaves the base instance mapping — every field of it, its tag
list included — exactly as it was before the batch: the loop only reads
the instance and copies its tag list. -/
theorem c9_base_config_unchanged (inst : Instance) (targets : List RawTarget) :
    (scrapeTargetsStep inst targets).2 = inst ∧
    (scrapeTargetsStep inst targets).2.tags = inst.tags := by
  have main : ∀ (ts : List RawTarget) (acc : List DynamicInstance × Instance),
      (ts.foldl
        (fun acc t =>
          let step := buildStep acc.2 t
          (acc.1 ++ step.1.toList, step.2))
        acc).2 = acc.2 := by
    intro ts
    induction ts with
    | nil => intro acc; rfl
    | cons t rest ih =>
      intro acc
      rw [List.foldl_cons]
      exact ih _
  have h := main targets ([], inst)
  exact ⟨h, congrArg Instance.tags h⟩

/-- C10, counterexample.  For the schemeless address `db1.example.com/`
(trailing slash) and no labels mapping, the code trims the trailing
slash before appending the path and builds
`https://db1.example.com/metrics`, while the claimed plain concatenation
`https://` + address + `/metrics` gives `https://db1.example.com//metrics`. -/
theorem c10_counterexample :
    (scrape_planetscale_targets instEx [{ targets := ["db1.example.com/"], labels := none }]).map
        (fun cfg => cfg.openmetrics_endpoint) = ["https://db1.example.com/metrics"] ∧
    "https://" ++ "db1.example.com/" ++ "/metrics" = "https://db1.example.com//metrics" ∧
    ("https://db1.example.com/metrics" : String) ≠ "https://db1.example.com//metrics" := by
  decide

/-- Specialization of the URL construction to a target without a labels
mapping: default path `/metrics`, empty query. -/
theorem buildUrl_no_labels (addr : String)
    (h : (strStartsWith addr "http://" || strStartsWith addr "https://") = false) :
    buildUrl addr [] = rstripSlash ("https://" ++ addr) ++ "/metrics" := by
  unfold buildUrl
  rw [h]
  rfl

/-- C10 (amended): for every raw target with a schemeless first address
and no labels mapping at all, the builder treats the labels as empty:
the built URL is `https://` plus the address — with trailing `/`
characters of the combined string trimmed — plus `/metrics` and no query
string, and the config tag set has exactly the members of the base
configuration tag list. -/
theorem c10_no_labels_default (inst : Instance) (addr : String) (rest : List String)
    (h : (strStartsWith addr "http://" || strStartsWith addr "https://") = false) :
    ∃ cfg,
      buildDynamicInstance inst { targets := addr :: rest, labels := none } = some cfg ∧
      cfg.openmetrics_endpoint = rstripSlash ("https://" ++ addr) ++ "/metrics" ∧
      (∀ x, x ∈ cfg.tags ↔ x ∈ inst.tags.getD []) := by
  refine ⟨_, rfl, ?_, ?_⟩
  · exact buildUrl_no_labels addr h
  · intro x
    exact List.mem_dedup

/-- C10, witness: address `db1.example.com:8080` with `instEx`. -/
theorem c10_no_labels_default_witness :
    ∃ cfg,
      buildDynamicInstance instEx { targets := ["db1.example.com:8080"], labels := none } =
        some cfg ∧
      cfg.openmetrics_endpoint = rstripSlash ("https://" ++ "db1.example.com:8080") ++ "/metrics" ∧
      (∀ x, x ∈ cfg.tags ↔ x ∈ instEx.tags.getD []) :=
  c10_no_labels_default instEx "db1.example.com:8080" [] (by decide)

end PlanetScale
